import Mathlib

/-!
Shallow embedding of the Week-17-PostgreSQL user-registration service
(src/src/index.ts together with the table definitions of src/src/schema.ts).

Modelling conventions:
* A JSON body field is `Option String`: `none` stands for an absent field,
  a JSON `null`, or a non-string JSON value — all of which fail `zod.string()`
  and are sent to the database as SQL NULL (and make `bcrypt.hash` reject).
* The zod email format check and the bcrypt digest are external library code;
  the handler is parameterized over them (`emailOk : String → Bool`,
  `hash : String → String`).
* The connection-pool session is a `Session`: the current visible store plus
  an optional snapshot taken at BEGIN.  COMMIT drops the snapshot; ROLLBACK
  restores it when one exists and is a no-op otherwise (PostgreSQL only warns
  on ROLLBACK outside a transaction).
* The Express response channel is the list of `respond` events the handler
  emits, in order; the client receives the first one (`clientResponse`).
-/

namespace Week17

/-- The seven fields of the POST /signup body (index.ts line 24). -/
structure SignupRequest where
  username : Option String
  email : Option String
  password : Option String
  city : Option String
  country : Option String
  street : Option String
  pincode : Option String
deriving Repr, DecidableEq

/-- Character class of the username regex `[a-z A-Z\d]` (index.ts line 13):
lowercase letters, the space character, uppercase letters, and digits,
in the order the class lists them. -/
def usernameCharOk (c : Char) : Bool :=
  (decide ('a' ≤ c) && decide (c ≤ 'z')) || (c == ' ')
    || (decide ('A' ≤ c) && decide (c ≤ 'Z'))
    || (decide ('0' ≤ c) && decide (c ≤ '9'))

/-- The regex `^[a-z A-Z\d]{2,20}$` of index.ts line 13: 2 to 20 characters,
each from the class above. -/
def usernameRegexMatch (s : String) : Bool :=
  decide (2 ≤ s.length) && decide (s.length ≤ 20) && s.data.all usernameCharOk

/-- `usernameSchema.safeParse`: succeeds exactly on strings matching the regex. -/
def usernameSchema : Option String → Bool
  | some s => usernameRegexMatch s
  | none => false

/-- `emailSchema.safeParse`: a string passing zod's email format check
(external library code, taken as the parameter `emailOk`). -/
def emailSchema (emailOk : String → Bool) : Option String → Bool
  | some s => emailOk s
  | none => false

/-- `zod.string().safeParse`: succeeds exactly on strings. -/
def stringSchema : Option String → Bool
  | some _ => true
  | none => false

/-- `passwordSchema` (index.ts line 15) is `zod.string()`. -/
def passwordSchema : Option String → Bool := stringSchema

/-- `citySchema` (index.ts line 16) is `zod.string()`. -/
def citySchema : Option String → Bool := stringSchema

/-- `countrySchema` (index.ts line 17) is `zod.string()`. -/
def countrySchema : Option String → Bool := stringSchema

/-- `streetSchema` (index.ts line 18) is `zod.string()`. -/
def streetSchema : Option String → Bool := stringSchema

/-- `pincodeSchema` (index.ts line 19) is `zod.string()` — not `.optional()`. -/
def pincodeSchema : Option String → Bool := stringSchema

/-- The guard of index.ts line 36: true when at least one of the seven
safeParse results is unsuccessful. -/
def anyInvalid (emailOk : String → Bool) (r : SignupRequest) : Bool :=
  !(usernameSchema r.username) || !(emailSchema emailOk r.email)
    || !(passwordSchema r.password) || !(citySchema r.city)
    || !(countrySchema r.country) || !(streetSchema r.street)
    || !(pincodeSchema r.pincode)

/-- A row of the `users` table (schema.ts lines 5-11; `created_at` is filled by
a database default and never read by any handler, so it is omitted). -/
structure UserRow where
  id : Nat
  username : String
  email : String
  password : String
deriving Repr, DecidableEq

/-- A row of the `addresses` table (schema.ts lines 15-24; `created_at`
omitted as above; `pincode` is a nullable column). -/
structure AddressRow where
  id : Nat
  user_id : Nat
  city : String
  country : String
  street : String
  pincode : Option String
deriving Repr, DecidableEq

/-- The two tables plus the state of their SERIAL id sequences. -/
structure Store where
  users : List UserRow
  addresses : List AddressRow
  nextUserId : Nat
  nextAddressId : Nat
deriving Repr, DecidableEq

/-- A pool session: the store it sees, and the snapshot taken at BEGIN while
a transaction is open. -/
structure Session where
  store : Store
  snapshot : Option Store
deriving Repr, DecidableEq

/-- `BEGIN` (index.ts line 55): open a transaction by snapshotting the store. -/
def Session.beginTxn (s : Session) : Session :=
  { s with snapshot := some s.store }

/-- `COMMIT` (index.ts line 78): make the working store durable. -/
def Session.commitTxn (s : Session) : Session :=
  { s with snapshot := none }

/-- `ROLLBACK` (index.ts line 86): restore the snapshot when a transaction is
open; outside a transaction PostgreSQL only emits a warning and nothing
changes. -/
def Session.rollbackTxn (s : Session) : Session :=
  match s.snapshot with
  | some st => { store := st, snapshot := none }
  | none => s

/-- `INSERT INTO users (username, email, password) VALUES ($1,$2,$3)
RETURNING id` (index.ts lines 58-59), under the constraints of schema.ts:
NOT NULL on all three columns, VARCHAR length limits, and the unique
constraints on username and email.  Returns the new store and the id. -/
def insertUser (st : Store) (username email : Option String)
    (passwordValue : String) : Except String (Store × Nat) :=
  match username, email with
  | some u, some e =>
    if 50 < u.length then
      .error "value too long for type character varying(50)"
    else if 50 < e.length then
      .error "value too long for type character varying(50)"
    else if 100 < passwordValue.length then
      .error "value too long for type character varying(100)"
    else if st.users.any (fun r => r.username == u) then
      .error "duplicate key value violates unique constraint users_username_key"
    else if st.users.any (fun r => r.email == e) then
      .error "duplicate key value violates unique constraint users_email_key"
    else
      .ok ({ st with
              users := st.users
                ++ [{ id := st.nextUserId, username := u, email := e,
                      password := passwordValue }],
              nextUserId := st.nextUserId + 1 },
           st.nextUserId)
  | _, _ => .error "null value violates not-null constraint"

/-- `INSERT INTO addresses (user_id, city, country, street, pincode)
VALUES ($1,$2,$3,$4,$5)` (index.ts lines 61-63), under the constraints of
schema.ts: NOT NULL on city/country/street, VARCHAR limits, nullable pincode,
and the foreign key on user_id. -/
def insertAddress (st : Store) (userId : Nat)
    (city country street pincode : Option String) : Except String Store :=
  match city, country, street with
  | some c, some co, some s =>
    if 100 < c.length then
      .error "value too long for type character varying(100)"
    else if 100 < co.length then
      .error "value too long for type character varying(100)"
    else if 100 < s.length then
      .error "value too long for type character varying(100)"
    else if (match pincode with | some p => decide (20 < p.length) | none => false) then
      .error "value too long for type character varying(20)"
    else if !(st.users.any (fun r => r.id == userId)) then
      .error "insert or update violates foreign key constraint addresses_user_id_fkey"
    else
      .ok { st with
            addresses := st.addresses
              ++ [{ id := st.nextAddressId, user_id := userId, city := c,
                    country := co, street := s, pincode := pincode }],
            nextAddressId := st.nextAddressId + 1 }
  | _, _, _ => .error "null value violates not-null constraint"

/-- `bcrypt.hash(password, saltRounds)`: rejects when the password is not a
string, otherwise produces the digest of the opaque hash function. -/
def bcryptHash (hash : String → String) : Option String → Except String String
  | some p => .ok (hash p)
  | none => .error "data must be a string or Buffer"

/-- The observable actions of one run of the signup handler, in order. -/
inductive Event where
  | respond (status : Nat) (message : String)
  | hashCall
  | beginStmt
  | insertUsersStmt
  | insertAddressesStmt
  | commitStmt
  | rollback (txnWasOpen : Bool)
deriving Repr, DecidableEq

/-- Result of one handler run: the final session and the event trace. -/
structure RunResult where
  session : Session
  events : List Event
deriving Repr, DecidableEq

/-- The catch block of index.ts lines 85-93: ROLLBACK, then the generic
500 response. -/
def catchBlock (sess : Session) (evs : List Event) : RunResult :=
  { session := sess.rollbackTxn,
    events := evs
      ++ [.rollback sess.snapshot.isSome, .respond 500 "Error Inserting Data"] }

/-- The POST /signup handler (index.ts lines 21-98).  The 401 branch of
line 36 sends a response but does not return, so execution continues into
hashing and the transaction exactly as in the source. -/
def signup (emailOk : String → Bool) (hash : String → String)
    (req : SignupRequest) (sess : Session) : RunResult :=
  let ev0 : List Event :=
    if anyInvalid emailOk req then [.respond 401 "Invalid Entry"] else []
  match bcryptHash hash req.password with
  | .error _ => catchBlock sess (ev0 ++ [.hashCall])
  | .ok hashedPassword =>
    let ev1 := ev0 ++ [.hashCall]
    let sess1 := sess.beginTxn
    let ev2 := ev1 ++ [.beginStmt]
    match insertUser sess1.store req.username req.email hashedPassword with
    | .error _ => catchBlock sess1 (ev2 ++ [.insertUsersStmt])
    | .ok (st2, userId) =>
      let sess2 : Session := { sess1 with store := st2 }
      let ev3 := ev2 ++ [.insertUsersStmt]
      match insertAddress st2 userId req.city req.country req.street req.pincode with
      | .error _ => catchBlock sess2 (ev3 ++ [.insertAddressesStmt])
      | .ok st3 =>
        { session := Session.commitTxn { sess2 with store := st3 },
          events := ev3
            ++ [.insertAddressesStmt, .commitStmt,
                .respond 201 "Data Inserted Successfully"] }

/-- The status and body the client actually receives: the first response
written to the connection. -/
def clientResponse : List Event → Option (Nat × String)
  | [] => none
  | .respond s m :: _ => some (s, m)
  | _ :: rest => clientResponse rest

/-- Decimal value of one digit character, if it is one. -/
def pgDigitVal (c : Char) : Option Nat :=
  if decide ('0' ≤ c) && decide (c ≤ '9') then some (c.toNat - '0'.toNat)
  else none

/-- Accumulate a decimal numeral; fails on the first non-digit. -/
def pgDigitsAux : List Char → Nat → Option Nat
  | [], acc => some acc
  | c :: cs, acc =>
    match pgDigitVal c with
    | some d => pgDigitsAux cs (acc * 10 + d)
    | none => none

/-- The `int4` range check of the cast: a numeral whose value lies outside
[-2147483648, 2147483647] raises "value out of range for type integer". -/
def pgInt4Range (n : Int) : Option Int :=
  if -2147483648 ≤ n ∧ n ≤ 2147483647 then some n else none

/-- PostgreSQL's cast of the text query parameter to `integer` in
`WHERE id = $1`: an optionally signed decimal literal, surrounding
spaces allowed, whose value fits `int4`; anything else raises an error. -/
def pgParseInt (s : String) : Option Int :=
  let cs :=
    ((s.data.dropWhile (fun c => c == ' ')).reverse.dropWhile
      (fun c => c == ' ')).reverse
  match cs with
  | '-' :: ds =>
    if ds.isEmpty then none
    else (pgDigitsAux ds 0).bind (fun n => pgInt4Range (-(n : Int)))
  | '+' :: ds =>
    if ds.isEmpty then none
    else (pgDigitsAux ds 0).bind (fun n => pgInt4Range (n : Int))
  | ds =>
    if ds.isEmpty then none
    else (pgDigitsAux ds 0).bind (fun n => pgInt4Range (n : Int))

/-- The `{id, username, email}` projection of a users row
(index.ts line 117). -/
structure UserView where
  id : Nat
  username : String
  email : String
deriving Repr, DecidableEq

/-- Outcome of the GET /user/badapproach handler. -/
inductive BadLookupResult where
  | failure (status : Nat) (message : String)
  | success (status : Nat) (user : UserView) (addresses : List AddressRow)
deriving Repr, DecidableEq

/-- The GET /user/badapproach handler (index.ts lines 101-159): first
`SELECT id, username, email FROM users WHERE id = $1`, 404 on zero rows,
otherwise `SELECT * FROM addresses WHERE user_id = $1` with the same raw
parameter and a 200 carrying the first user row plus all matching
addresses.  An absent query parameter reaches the store as SQL NULL, which
matches no row; a non-integer parameter makes the cast raise, and the catch
block answers 500. -/
def badLookup (st : Store) (idParam : Option String) : BadLookupResult :=
  match idParam with
  | none => .failure 404 "User Not Found"
  | some sid =>
    match pgParseInt sid with
    | none => .failure 500 "Error Fetching Data"
    | some n =>
      match st.users.filter (fun r => (r.id : Int) == n) with
      | [] => .failure 404 "User Not Found"
      | u :: _ =>
        .success 200 { id := u.id, username := u.username, email := u.email }
          (st.addresses.filter (fun a => (a.user_id : Int) == n))

/-- One row of the join projection of index.ts lines 255-261. -/
structure JoinedRow where
  id : Nat
  username : String
  email : String
  city : String
  country : String
  street : String
  pincode : Option String
deriving Repr, DecidableEq

/-- The rows of `SELECT users.id, users.username, users.email,
addresses.city, addresses.country, addresses.street, addresses.pincode
FROM users JOIN addresses ON users.id = addresses.user_id
WHERE users.id = $1`, in the nested-loop order of the stored lists. -/
def joinRows (st : Store) (n : Int) : List JoinedRow :=
  (st.users.filter (fun r => (r.id : Int) == n)).flatMap (fun u =>
    (st.addresses.filter (fun a => a.user_id == u.id)).map (fun a =>
      { id := u.id, username := u.username, email := u.email,
        city := a.city, country := a.country, street := a.street,
        pincode := a.pincode }))

/-- Outcome of the GET /user/goodapproach handler. -/
inductive GoodLookupResult where
  | failure (status : Nat) (message : String)
  | success (status : Nat) (row : JoinedRow)
deriving Repr, DecidableEq

/-- The GET /user/goodapproach handler (index.ts lines 162-285): the inner
join above, 404 on zero rows, otherwise a 200 carrying only `rows[0]`. -/
def goodLookup (st : Store) (idParam : Option String) : GoodLookupResult :=
  match idParam with
  | none => .failure 404 "User Not Found"
  | some sid =>
    match pgParseInt sid with
    | none => .failure 500 "Error Fetching Data"
    | some n =>
      match joinRows st n with
      | [] => .failure 404 "User Not Found"
      | r :: _ => .success 200 r

/-! Concrete instances used by witnesses and counterexamples. -/

/-- A concrete stand-in for zod's email format check: accepts any string
containing an `@`. -/
def emailOkDemo : String → Bool := fun s => s.data.any (fun c => c == '@')

/-- A concrete stand-in for the bcrypt digest. -/
def hashDemo : String → String := fun p => "bc$" ++ p

/-- Fresh database as created by schema.ts: both tables empty, both SERIAL
sequences at 1. -/
def emptyStore : Store :=
  { users := [], addresses := [], nextUserId := 1, nextAddressId := 1 }

/-- A session with no open transaction on the fresh database. -/
def freshSession : Session := { store := emptyStore, snapshot := none }

/-- The spec's concrete scenario payload with the one-character username
`"a"`, which violates the 2-20 rule while every other field is valid. -/
def reqShortName : SignupRequest :=
  { username := some "a", email := some "a@b.com", password := some "x",
    city := some "NY", country := some "US", street := some "Main",
    pincode := some "10001" }

/-- A fully valid payload. -/
def reqValid : SignupRequest :=
  { username := some "al", email := some "a@b.com", password := some "x",
    city := some "NY", country := some "US", street := some "Main",
    pincode := some "10001" }

/-- A payload identical to `reqValid` except that pincode is absent. -/
def reqNoPincode : SignupRequest :=
  { username := some "al", email := some "a@b.com", password := some "x",
    city := some "NY", country := some "US", street := some "Main",
    pincode := none }

/-- A payload whose password is absent (or not a string), making
`bcrypt.hash` reject. -/
def reqNoPassword : SignupRequest :=
  { username := some "al", email := some "a@b.com", password := none,
    city := some "NY", country := some "US", street := some "Main",
    pincode := some "10001" }

/-- A store already holding one user with email `"a@b.com"` and no address. -/
def storeWithBob : Store :=
  { users := [{ id := 1, username := "bob", email := "a@b.com",
                password := "bc$pw" }],
    addresses := [], nextUserId := 2, nextAddressId := 1 }

/-- A session with no open transaction on `storeWithBob`. -/
def sessionWithBob : Session := { store := storeWithBob, snapshot := none }

/-- A valid payload whose email duplicates the one `storeWithBob` holds,
so the users insert breaks the unique constraint inside the transaction. -/
def reqDupEmail : SignupRequest :=
  { username := some "cd", email := some "a@b.com", password := some "x",
    city := some "NY", country := some "US", street := some "Main",
    pincode := some "10001" }

/-- A store with one user (id 1) owning two addresses, and a second user
(id 2) owning none. -/
def storeTwoAddresses : Store :=
  { users := [{ id := 1, username := "al", email := "a@b.com",
                password := "bc$x" },
              { id := 2, username := "bo", email := "b@b.com",
                password := "bc$y" }],
    addresses := [{ id := 1, user_id := 1, city := "NY", country := "US",
                    street := "Main", pincode := some "10001" },
                  { id := 2, user_id := 1, city := "LA", country := "US",
                    street := "Elm", pincode := none }],
    nextUserId := 3, nextAddressId := 3 }

/-! Helper lemmas shared by the claim theorems. -/

/-- Success characterization of the users insert. -/
theorem insertUser_ok {st : Store} {username email : Option String}
    {pv : String} {st2 : Store} {uid : Nat}
    (h : insertUser st username email pv = .ok (st2, uid)) :
    ∃ u e, username = some u ∧ email = some e ∧ uid = st.nextUserId ∧
      st2.users = st.users
        ++ [{ id := uid, username := u, email := e, password := pv }] ∧
      st2.addresses = st.addresses := by
  cases username with
  | none => simp [insertUser] at h
  | some u =>
    cases email with
    | none => simp [insertUser] at h
    | some e =>
      simp only [insertUser] at h
      split_ifs at h
      simp only [Except.ok.injEq, Prod.mk.injEq] at h
      obtain ⟨h1, h2⟩ := h
      subst h2
      exact ⟨u, e, rfl, rfl, rfl, by rw [← h1], by rw [← h1]⟩

/-- Success characterization of the addresses insert. -/
theorem insertAddress_ok {st : Store} {userId : Nat}
    {city country street pincode : Option String} {st3 : Store}
    (h : insertAddress st userId city country street pincode = .ok st3) :
    ∃ c co s, city = some c ∧ country = some co ∧ street = some s ∧
      st3.users = st.users ∧
      st3.addresses = st.addresses
        ++ [{ id := st.nextAddressId, user_id := userId, city := c,
              country := co, street := s, pincode := pincode }] := by
  cases city with
  | none => simp [insertAddress] at h
  | some c =>
    cases country with
    | none => simp [insertAddress] at h
    | some co =>
      cases street with
      | none => simp [insertAddress] at h
      | some s =>
        simp only [insertAddress] at h
        split_ifs at h
        simp only [Except.ok.injEq] at h
        exact ⟨c, co, s, rfl, rfl, rfl, by rw [← h], by rw [← h]⟩

/-- A request whose password is not a string fails the aggregate check. -/
theorem anyInvalid_of_password_none {emailOk : String → Bool}
    {req : SignupRequest} (h : req.password = none) :
    anyInvalid emailOk req = true := by
  simp [anyInvalid, passwordSchema, stringSchema, h]

/-- The regex character class coincides with ASCII letter / digit / space. -/
theorem usernameCharOk_iff (c : Char) :
    usernameCharOk c = true ↔ (c.isAlpha = true ∨ c.isDigit = true ∨ c = ' ') := by
  simp [usernameCharOk, Char.isAlpha, Char.isUpper, Char.isLower, Char.isDigit]
  tauto

/-! Claim theorems. -/

/-- C6: a username passes field validation if and only if it is a string of
length 2 to 20 whose every character is an ASCII letter, an ASCII digit, or
a space; in particular the one-character username `"a"` fails. -/
theorem username_validation_rule :
    (∀ s : String, usernameSchema (some s) = true ↔
      (2 ≤ s.length ∧ s.length ≤ 20 ∧
        ∀ c ∈ s.data, (c.isAlpha = true ∨ c.isDigit = true ∨ c = ' '))) ∧
    usernameSchema none = false ∧
    usernameSchema (some "a") = false := by
  refine ⟨fun s => ?_, rfl, by decide⟩
  simp only [usernameSchema, usernameRegexMatch, Bool.and_eq_true,
    decide_eq_true_eq, List.all_eq_true, usernameCharOk_iff]
  tauto

/-- C8: the password hash is computed on every signup request — the
hashing call appears in every trace, also when validation has failed. -/
theorem signup_always_hashes (emailOk : String → Bool) (hash : String → String)
    (req : SignupRequest) (sess : Session) :
    Event.hashCall ∈ (signup emailOk hash req sess).events := by
  simp only [signup]
  split
  · simp [catchBlock]
  · split
    · simp [catchBlock]
    · split
      · simp [catchBlock]
      · simp

/-- C1: on the spec's own scenario — username `"a"` (violating the 2-20
rule) with every other field valid, against a fresh store — the handler
answers 401 "Invalid Entry" but, the 401 branch not returning, still hashes,
opens the transaction, runs both inserts and commits, so a users row and an
addresses row are written; the claim that no row is written is violated. -/
theorem signup_invalid_field_still_writes :
    anyInvalid emailOkDemo reqShortName = true ∧
    clientResponse (signup emailOkDemo hashDemo reqShortName freshSession).events
      = some (401, "Invalid Entry") ∧
    (signup emailOkDemo hashDemo reqShortName freshSession).session.store.users
      = [{ id := 1, username := "a", email := "a@b.com", password := "bc$x" }] ∧
    (signup emailOkDemo hashDemo reqShortName freshSession).session.store.addresses
      = [{ id := 1, user_id := 1, city := "NY", country := "US",
           street := "Main", pincode := some "10001" }] := by
  decide

/-- C2: for every valid payload, whenever the handler emits the 201 success
response, exactly one new users row and exactly one new addresses row were
written, and the addresses row's user_id equals the id generated for the
users row. -/
theorem signup_valid_success_rows (emailOk : String → Bool)
    (hash : String → String) (req : SignupRequest) (sess : Session)
    (hv : anyInvalid emailOk req = false)
    (h201 : Event.respond 201 "Data Inserted Successfully"
      ∈ (signup emailOk hash req sess).events) :
    ∃ u a,
      (signup emailOk hash req sess).session.store.users
        = sess.store.users ++ [u] ∧
      (signup emailOk hash req sess).session.store.addresses
        = sess.store.addresses ++ [a] ∧
      a.user_id = u.id := by
  obtain ⟨pw, hpw⟩ : ∃ pw, req.password = some pw := by
    cases hp : req.password with
    | none => rw [anyInvalid_of_password_none hp] at hv; cases hv
    | some pw => exact ⟨pw, rfl⟩
  simp only [signup, hpw, bcryptHash, Session.beginTxn, hv, Bool.false_eq_true,
    if_false, List.nil_append] at h201 ⊢
  cases hins : insertUser sess.store req.username req.email (hash pw) with
  | error e =>
    simp [hins, catchBlock] at h201
  | ok p =>
    obtain ⟨st2, uid⟩ := p
    simp only [hins] at h201 ⊢
    cases hins2 : insertAddress st2 uid req.city req.country req.street
        req.pincode with
    | error e =>
      simp [hins2, catchBlock] at h201
    | ok st3 =>
      simp only [hins2]
      obtain ⟨u, e, hu, he, huid, husers, haddr⟩ := insertUser_ok hins
      obtain ⟨c, co, s, hc, hco, hs, husers3, haddr3⟩ := insertAddress_ok hins2
      refine ⟨{ id := uid, username := u, email := e, password := hash pw },
        { id := st2.nextAddressId, user_id := uid, city := c, country := co,
          street := s, pincode := req.pincode }, ?_, ?_, rfl⟩
      · simp only [Session.commitTxn, husers3, husers]
      · simp only [Session.commitTxn, haddr3, haddr]

/-- C2 witness: the fully valid demo payload on a fresh store. -/
theorem signup_valid_success_rows_witness :
    anyInvalid emailOkDemo reqValid = false ∧
    ∃ u a,
      (signup emailOkDemo hashDemo reqValid freshSession).session.store.users
        = freshSession.store.users ++ [u] ∧
      (signup emailOkDemo hashDemo reqValid freshSession).session.store.addresses
        = freshSession.store.addresses ++ [a] ∧
      a.user_id = u.id :=
  ⟨by decide,
   signup_valid_success_rows emailOkDemo hashDemo reqValid freshSession
     (by decide) (by decide)⟩

/-- C9: on a request with an invalid field whose password is still a string
and whose values the database accepts, the handler sends the 401 but then
(missing return) hashes, opens the transaction, runs both inserts, commits
and even emits the 201 — writing one users row and one addresses row. -/
theorem signup_no_return_after_401 (emailOk : String → Bool)
    (hash : String → String) (req : SignupRequest) (sess : Session)
    (pw : String) (st2 : Store) (uid : Nat) (st3 : Store)
    (hv : anyInvalid emailOk req = true)
    (hpw : req.password = some pw)
    (hu : insertUser sess.store req.username req.email (hash pw)
      = .ok (st2, uid))
    (ha : insertAddress st2 uid req.city req.country req.street req.pincode
      = .ok st3) :
    (signup emailOk hash req sess).events
      = [Event.respond 401 "Invalid Entry", Event.hashCall, Event.beginStmt,
         Event.insertUsersStmt, Event.insertAddressesStmt, Event.commitStmt,
         Event.respond 201 "Data Inserted Successfully"] ∧
    ∃ u a,
      (signup emailOk hash req sess).session.store.users
        = sess.store.users ++ [u] ∧
      (signup emailOk hash req sess).session.store.addresses
        = sess.store.addresses ++ [a] := by
  simp only [signup, hpw, bcryptHash, Session.beginTxn, hv, if_true]
  simp only [hu]
  simp only [ha]
  obtain ⟨u, e, hu2, he2, huid, husers, haddr⟩ := insertUser_ok hu
  obtain ⟨c, co, s, hc, hco, hs, husers3, haddr3⟩ := insertAddress_ok ha
  refine ⟨by simp,
    { id := uid, username := u, email := e, password := hash pw },
    { id := st2.nextAddressId, user_id := uid, city := c, country := co,
      street := s, pincode := req.pincode }, ?_, ?_⟩
  · simp only [Session.commitTxn, husers3, husers]
  · simp only [Session.commitTxn, haddr3, haddr]

/-- C9 witness: the one-character-username request on a fresh store. -/
theorem signup_no_return_after_401_witness :
    (signup emailOkDemo hashDemo reqShortName freshSession).events
      = [Event.respond 401 "Invalid Entry", Event.hashCall, Event.beginStmt,
         Event.insertUsersStmt, Event.insertAddressesStmt, Event.commitStmt,
         Event.respond 201 "Data Inserted Successfully"] :=
  (signup_no_return_after_401 emailOkDemo hashDemo reqShortName freshSession
    "x"
    { users := [{ id := 1, username := "a", email := "a@b.com",
                  password := "bc$x" }],
      addresses := [], nextUserId := 2, nextAddressId := 1 }
    1
    { users := [{ id := 1, username := "a", email := "a@b.com",
                  password := "bc$x" }],
      addresses := [{ id := 1, user_id := 1, city := "NY", country := "US",
                      street := "Main", pincode := some "10001" }],
      nextUserId := 2, nextAddressId := 2 }
    (by decide) rfl rfl rfl).1

/-- C10: when bcrypt rejects the password before any transaction is opened,
the catch block still runs ROLLBACK — on a session with no open transaction
(recorded as `rollback false`) — and then sends the generic 500; the store
is untouched.  (The 401 precedes, since a non-string password also fails
validation.) -/
theorem signup_rollback_without_txn (emailOk : String → Bool)
    (hash : String → String) (req : SignupRequest) (sess : Session)
    (hsnap : sess.snapshot = none) (hpw : req.password = none) :
    (signup emailOk hash req sess).events
      = [Event.respond 401 "Invalid Entry", Event.hashCall,
         Event.rollback false, Event.respond 500 "Error Inserting Data"] ∧
    (signup emailOk hash req sess).session = sess := by
  have hv : anyInvalid emailOk req = true := anyInvalid_of_password_none hpw
  simp [signup, hpw, bcryptHash, catchBlock, Session.rollbackTxn, hv, hsnap]

/-- C10 witness: the password-less request on a fresh session. -/
theorem signup_rollback_without_txn_witness :
    (signup emailOkDemo hashDemo reqNoPassword freshSession).events
      = [Event.respond 401 "Invalid Entry", Event.hashCall,
         Event.rollback false, Event.respond 500 "Error Inserting Data"] ∧
    (signup emailOkDemo hashDemo reqNoPassword freshSession).session
      = freshSession :=
  signup_rollback_without_txn emailOkDemo hashDemo reqNoPassword freshSession
    rfl rfl

/-- C3 counterexample: the request with the invalid one-character username
and a duplicate email raises the unique-constraint exception inside the
transaction (BEGIN was issued, COMMIT was not); ROLLBACK runs and the store
is unchanged, but the client receives the earlier 401, not the 500 — the
claim that the client receives an HTTP 500 fails at this input. -/
theorem signup_txn_error_client_gets_401 :
    Event.beginStmt
      ∈ (signup emailOkDemo hashDemo reqShortName sessionWithBob).events ∧
    Event.commitStmt
      ∉ (signup emailOkDemo hashDemo reqShortName sessionWithBob).events ∧
    Event.rollback true
      ∈ (signup emailOkDemo hashDemo reqShortName sessionWithBob).events ∧
    (signup emailOkDemo hashDemo reqShortName sessionWithBob).session.store
      = storeWithBob ∧
    clientResponse
        (signup emailOkDemo hashDemo reqShortName sessionWithBob).events
      = some (401, "Invalid Entry") := by
  decide

/-- C3 amended: whenever an exception is raised between BEGIN and COMMIT
(the trace opens a transaction it never commits), the handler issues
ROLLBACK on the open transaction, the store is left unchanged, and it sends
the fixed generic 500 body "Error Inserting Data" (independent of the
database error); that 500 is the response the client receives exactly when
validation passed (otherwise the earlier 401 was sent first). -/
theorem signup_txn_error_rolls_back (emailOk : String → Bool)
    (hash : String → String) (req : SignupRequest) (sess : Session)
    (hb : Event.beginStmt ∈ (signup emailOk hash req sess).events)
    (hc : Event.commitStmt ∉ (signup emailOk hash req sess).events) :
    (signup emailOk hash req sess).session.store = sess.store ∧
    (∃ pre, (signup emailOk hash req sess).events
      = pre ++ [Event.rollback true,
                Event.respond 500 "Error Inserting Data"]) ∧
    (anyInvalid emailOk req = false →
      clientResponse (signup emailOk hash req sess).events
        = some (500, "Error Inserting Data")) := by
  cases hai : anyInvalid emailOk req with
  | false =>
    simp only [signup, hai, Bool.false_eq_true, if_false, List.nil_append]
      at hb hc ⊢
    cases hbc : bcryptHash hash req.password with
    | error e =>
      simp [hbc, catchBlock] at hb
    | ok pwh =>
      simp only [hbc, Session.beginTxn] at hb hc ⊢
      cases hins : insertUser sess.store req.username req.email pwh with
      | error e =>
        simp only [hins, catchBlock, Session.rollbackTxn] at hc ⊢
        exact ⟨by trivial, ⟨_, by trivial⟩, fun _ => by trivial⟩
      | ok p =>
        obtain ⟨st2, uid⟩ := p
        simp only [hins] at hb hc ⊢
        cases hins2 : insertAddress st2 uid req.city req.country req.street
            req.pincode with
        | error e =>
          simp only [hins2, catchBlock, Session.rollbackTxn] at hc ⊢
          exact ⟨by trivial, ⟨_, by trivial⟩, fun _ => by trivial⟩
        | ok st3 =>
          simp only [hins2] at hc
          simp at hc
  | true =>
    simp only [signup, hai, if_true] at hb hc ⊢
    cases hbc : bcryptHash hash req.password with
    | error e =>
      simp [hbc, catchBlock] at hb
    | ok pwh =>
      simp only [hbc, Session.beginTxn] at hb hc ⊢
      cases hins : insertUser sess.store req.username req.email pwh with
      | error e =>
        simp only [hins, catchBlock, Session.rollbackTxn] at hc ⊢
        exact ⟨by trivial, ⟨_, by trivial⟩, fun h => Bool.noConfusion h⟩
      | ok p =>
        obtain ⟨st2, uid⟩ := p
        simp only [hins] at hb hc ⊢
        cases hins2 : insertAddress st2 uid req.city req.country req.street
            req.pincode with
        | error e =>
          simp only [hins2, catchBlock, Session.rollbackTxn] at hc ⊢
          exact ⟨by trivial, ⟨_, by trivial⟩, fun h => Bool.noConfusion h⟩
        | ok st3 =>
          simp only [hins2] at hc
          simp at hc

/-- C3 amended witness: a fully valid payload whose email duplicates an
existing row; the unique constraint breaks the transaction, the store is
unchanged and the client receives the generic 500. -/
theorem signup_txn_error_rolls_back_witness :
    (signup emailOkDemo hashDemo reqDupEmail sessionWithBob).session.store
      = sessionWithBob.store ∧
    (∃ pre, (signup emailOkDemo hashDemo reqDupEmail sessionWithBob).events
      = pre ++ [Event.rollback true,
                Event.respond 500 "Error Inserting Data"]) ∧
    (anyInvalid emailOkDemo reqDupEmail = false →
      clientResponse
          (signup emailOkDemo hashDemo reqDupEmail sessionWithBob).events
        = some (500, "Error Inserting Data")) :=
  signup_txn_error_rolls_back emailOkDemo hashDemo reqDupEmail sessionWithBob
    (by decide) (by decide)

/-- C4: for an existing user (the unique users row matching the identifier)
the joined lookup answers 404 "User Not Found" when the user has zero
addresses — the inner join masks that case — and answers 200 with exactly
the first joined row when the user has one or more addresses, dropping all
further ones. -/
theorem goodapproach_first_row (st : Store) (sid : String) (n : Int)
    (u : UserRow)
    (hn : pgParseInt sid = some n)
    (hu : st.users.filter (fun r => (r.id : Int) == n) = [u]) :
    (st.addresses.filter (fun a => a.user_id == u.id) = [] →
      goodLookup st (some sid) = .failure 404 "User Not Found") ∧
    (∀ a rest, st.addresses.filter (fun a => a.user_id == u.id) = a :: rest →
      goodLookup st (some sid)
        = .success 200
            { id := u.id, username := u.username, email := u.email,
              city := a.city, country := a.country, street := a.street,
              pincode := a.pincode }) := by
  constructor
  · intro hA
    simp [goodLookup, hn, joinRows, hu, hA]
  · intro a rest hA
    simp [goodLookup, hn, joinRows, hu, hA]

/-- C4 witness: user id 1 of the demo store owns two addresses; the joined
lookup returns only the first. -/
theorem goodapproach_first_row_witness :
    goodLookup storeTwoAddresses (some "1")
      = .success 200
          { id := 1, username := "al", email := "a@b.com", city := "NY",
            country := "US", street := "Main", pincode := some "10001" } :=
  (goodapproach_first_row storeTwoAddresses "1" 1
      { id := 1, username := "al", email := "a@b.com", password := "bc$x" }
      (by decide) (by decide)).2
    { id := 1, user_id := 1, city := "NY", country := "US", street := "Main",
      pincode := some "10001" }
    [{ id := 2, user_id := 1, city := "LA", country := "US", street := "Elm",
       pincode := none }]
    (by decide)

/-- C5: the two-query lookup answers 404 "User Not Found" when no users row
matches the identifier, and otherwise answers 200 with the user's
{id, username, email} together with exactly the addresses whose user_id
equals the identifier — the full filtered list, possibly empty. -/
theorem badapproach_exact_addresses (st : Store) (sid : String) (n : Int)
    (hn : pgParseInt sid = some n) :
    (st.users.filter (fun r => (r.id : Int) == n) = [] →
      badLookup st (some sid) = .failure 404 "User Not Found") ∧
    (∀ u rest, st.users.filter (fun r => (r.id : Int) == n) = u :: rest →
      badLookup st (some sid)
        = .success 200
            { id := u.id, username := u.username, email := u.email }
            (st.addresses.filter (fun a => (a.user_id : Int) == n))) := by
  constructor
  · intro hU
    simp [badLookup, hn, hU]
  · intro u rest hU
    simp [badLookup, hn, hU]

/-- C5 witness: user id 2 of the demo store exists with zero addresses; the
two-query lookup returns it with the empty address list, while a
non-existent id 9 yields 404. -/
theorem badapproach_exact_addresses_witness :
    badLookup storeTwoAddresses (some "2")
      = .success 200 { id := 2, username := "bo", email := "b@b.com" } [] ∧
    badLookup storeTwoAddresses (some "9")
      = .failure 404 "User Not Found" :=
  ⟨((badapproach_exact_addresses storeTwoAddresses "2" 2 (by decide)).2
      { id := 2, username := "bo", email := "b@b.com", password := "bc$y" }
      [] (by decide)).trans (by decide),
   (badapproach_exact_addresses storeTwoAddresses "9" 9 (by decide)).1
      (by decide)⟩

/-- C7 counterexample: a payload valid in every field except that pincode is
absent fails field validation (pincodeSchema is a plain string schema), so
the claim that such a request still passes validation is false. -/
theorem pincode_missing_fails_validation :
    usernameSchema reqNoPincode.username = true ∧
    emailSchema emailOkDemo reqNoPincode.email = true ∧
    passwordSchema reqNoPincode.password = true ∧
    citySchema reqNoPincode.city = true ∧
    countrySchema reqNoPincode.country = true ∧
    streetSchema reqNoPincode.street = true ∧
    pincodeSchema reqNoPincode.pincode = false ∧
    anyInvalid emailOkDemo reqNoPincode = true := by
  decide

/-- C7 amended: at validation time pincode is required present text exactly
like password, city, country and street — omitting any of the five fails the
aggregate check; pincode is optional only at the database level, where the
addresses insert accepts a NULL pincode. -/
theorem pincode_required_at_validation (emailOk : String → Bool)
    (req : SignupRequest) :
    (req.pincode = none → anyInvalid emailOk req = true) ∧
    (req.password = none → anyInvalid emailOk req = true) ∧
    (req.city = none → anyInvalid emailOk req = true) ∧
    (req.country = none → anyInvalid emailOk req = true) ∧
    (req.street = none → anyInvalid emailOk req = true) ∧
    (∀ st uid c co s, c.length ≤ 100 → co.length ≤ 100 → s.length ≤ 100 →
      st.users.any (fun r => r.id == uid) = true →
      ∃ st2, insertAddress st uid (some c) (some co) (some s) none
        = .ok st2) := by
  refine ⟨fun h => ?_, fun h => ?_, fun h => ?_, fun h => ?_, fun h => ?_,
    fun st uid c co s hc hco hs hfk => ?_⟩
  · simp [anyInvalid, pincodeSchema, stringSchema, h]
  · simp [anyInvalid, passwordSchema, stringSchema, h]
  · simp [anyInvalid, citySchema, stringSchema, h]
  · simp [anyInvalid, countrySchema, stringSchema, h]
  · simp [anyInvalid, streetSchema, stringSchema, h]
  · refine ⟨{ st with
        addresses := st.addresses
          ++ [{ id := st.nextAddressId, user_id := uid, city := c,
                country := co, street := s, pincode := none }],
        nextAddressId := st.nextAddressId + 1 }, ?_⟩
    show insertAddress st uid (some c) (some co) (some s) none = _
    simp only [insertAddress]
    rw [if_neg (by omega), if_neg (by omega), if_neg (by omega),
      if_neg (by decide), if_neg (by simp [hfk])]

/-- C7 amended witness: the concrete pincode-less payload fails validation,
and the addresses insert on the demo store accepts a NULL pincode. -/
theorem pincode_required_at_validation_witness :
    anyInvalid emailOkDemo reqNoPincode = true ∧
    ∃ st2, insertAddress storeWithBob 1 (some "NY") (some "US") (some "Main")
      none = .ok st2 :=
  ⟨(pincode_required_at_validation emailOkDemo reqNoPincode).1 rfl,
   (pincode_required_at_validation emailOkDemo reqNoPincode).2.2.2.2.2
     storeWithBob 1 "NY" "US" "Main" (by decide) (by decide) (by decide)
     (by decide)⟩

end Week17
